import Mathlib

/-!
Verification of the bus_routes SMS command router.

Shallow embedding of:
* the unified message parser (`gemini-api.js`, `MessageParser.parse`),
* the refresh session manager (`message-handler.js`, `SessionManager`),
* the daily calorie tracker (`calorie-tracker.js`),
* the pending/active Uber ride store (`uber-pending.js`),
* the booking confirmation post-processing (`uber-agent.js`, `confirmUberRide`),
* the SMS dispatcher (`server.js`, `app.post(/sms)`).

JavaScript strings are embedded as `String`/`List Char`; the numbers the
claims touch are integers, embedded as `Int`/`Nat`; times are milliseconds
as `Nat`; external collaborator calls are embedded as `Except`-valued
oracles consumed at the exact points the dispatcher awaits them.
-/

namespace BusRoutes

/-- JS `a || b` where `a` is possibly `undefined`/`null`; both a missing
value and the empty string are falsy. -/
def orElseStr (a : Option String) (d : String) : String :=
  match a with
  | some s => if s = "" then d else s
  | none => d

/-- JS `a || b` where `a` is a plain string (the empty string is falsy). -/
def strOr (a d : String) : String :=
  if a = "" then d else a

/-- JS template interpolation of a possibly-undefined value. -/
def showOpt (a : Option String) : String :=
  match a with
  | some s => s
  | none => "undefined"

/-- Short-circuit choice: try one regex alternative, then the next. -/
def optOr (a b : Option α) : Option α :=
  match a with
  | some v => some v
  | none => b

/-- The tagged command variants produced by `MessageParser.parse`
(`gemini-api.js`) and dispatched by `server.js`. -/
inductive Command where
  | help
  | reset_calories
  | total
  | subtract (amount : Nat)
  | set_target (amount : Nat)
  | suggestions (calories : Nat) (descriptors : Option String)
  | image_calorie (textContext : String)
  | refresh
  | stop_query (stopCode : String) (route : Option String)
  | service_changes (route : String)
  | uber_quote (pickup : String) (destination : String)
  | uber_confirm
  | uber_status
  | uber_cancel
  | uber_auth (code : String)
  | food_query (foodDescription : String)
  | error (message : String)
deriving DecidableEq

/-- JS `String.prototype.trim` on a char list (whitespace at both ends). -/
def trimChars (l : List Char) : List Char :=
  ((l.dropWhile Char.isWhitespace).reverse.dropWhile Char.isWhitespace).reverse

/-- JS `String.prototype.toLowerCase` on a char list. -/
def lowerChars (l : List Char) : List Char := l.map Char.toLower

/-- JS `parseInt(s, 10)` on a string of decimal digits. -/
def digitsToNat (l : List Char) : Nat :=
  l.foldl (fun n c => 10 * n + (c.toNat - '0'.toNat)) 0

/-- The regex `^sub\s+(\d+)$` applied to the lower-cased text
(`gemini-api.js:224`), returning the captured amount. -/
def subMatch : List Char → Option Nat
  | 's' :: 'u' :: 'b' :: rest =>
    let ws := rest.takeWhile Char.isWhitespace
    let ds := rest.dropWhile Char.isWhitespace
    if ws ≠ [] ∧ ds ≠ [] ∧ ds.all Char.isDigit then some (digitsToNat ds) else none
  | _ => none

/-- `\s*(\d{6})`: skip whitespace greedily, then require six digits.
Returns the captured code and the text after it. -/
def wsDigits (cs : List Char) : Option (List Char × List Char) :=
  let rest := cs.dropWhile Char.isWhitespace
  let code := rest.take 6
  if code.length = 6 ∧ code.all Char.isDigit then some (code, rest.drop 6) else none

/-- One alternative of the optional verb group of the stop-code regex,
matched case-insensitively, followed by `\s*(\d{6})`. -/
def tryVerb (v : List Char) (cs : List Char) : Option (List Char × List Char) :=
  if (cs.take v.length).map Char.toLower = v then wsDigits (cs.drop v.length) else none

/-- One attempt of `(?:stop|bus|check|query|when|times?)?\s*(\d{6})` at a
fixed position: the verb alternatives in the order the engine tries them,
the empty alternative last. -/
def tryAt (cs : List Char) : Option (List Char × List Char) :=
  optOr (tryVerb "stop".toList cs)
    (optOr (tryVerb "bus".toList cs)
      (optOr (tryVerb "check".toList cs)
        (optOr (tryVerb "query".toList cs)
          (optOr (tryVerb "when".toList cs)
            (optOr (tryVerb "times".toList cs)
              (optOr (tryVerb "time".toList cs)
                (wsDigits cs)))))))

/-- Leftmost-match search of the stop-code regex (`String.prototype.match`
tries each start position left to right). -/
def scanStop : List Char → Option (List Char × List Char)
  | [] => none
  | c :: cs => optOr (tryAt (c :: cs)) (scanStop cs)

/-- A character of the optional route token `[A-Z0-9\-]` under the `i` flag. -/
def isRouteChar (c : Char) : Bool := c.isAlpha || c.isDigit || c == '-'

/-- The stop-code rule `(?:stop|bus|check|query|when|times?)?\s*(\d{6})(?:\s+([A-Z0-9\-]+))?`
(`gemini-api.js:245`): leftmost match, then the optional route group. -/
def stopMatch (cs : List Char) : Option (List Char × Option (List Char)) :=
  match scanStop cs with
  | none => none
  | some (code, rest) =>
    let ws := rest.takeWhile Char.isWhitespace
    let afterWs := rest.dropWhile Char.isWhitespace
    let route := afterWs.takeWhile isRouteChar
    if ws ≠ [] ∧ route ≠ [] then some (code, some route) else some (code, none)

/-- JS `mediaType?.startsWith('image/')` with falsy `undefined`. -/
def mediaIsImage : Option (List Char) → Bool
  | some m => ("image/".toList).isPrefixOf m
  | none => false

/-- The help hint of the final `error` fallback. -/
def errorHint : String := "Send \x22how\x22 for available commands."

/-- `MessageParser.parse` of `gemini-api.js` lines 204-261, rule by rule in
source order, on a message given as a char list. -/
def parseChars (body : List Char) (hasMedia : Bool) (mediaType : Option (List Char)) :
    Command :=
  let trimmed := trimChars body
  let lower := lowerChars trimmed
  if lower = "how".toList ∨ lower = "?".toList then .help
  else if lower = "reset calories".toList then .reset_calories
  else if lower = "total".toList then .total
  else
    match subMatch lower with
    | some amount => .subtract amount
    | none =>
      if hasMedia && mediaIsImage mediaType then .image_calorie ⟨trimmed⟩
      else if lower = "r".toList ∨ lower = "refresh".toList then .refresh
      else if ("c ".toList).isPrefixOf lower then
        .service_changes ⟨(trimChars (trimmed.drop 2)).map Char.toUpper⟩
      else
        match stopMatch trimmed with
        | some (code, route) =>
          .stop_query ⟨code⟩ (route.map fun r => ⟨r.map Char.toUpper⟩)
        | none =>
          if 2 ≤ trimmed.length then .food_query ⟨trimmed⟩
          else .error errorHint

/-- `MessageParser.parse(messageBody, hasMedia, mediaType)`. -/
def parse (messageBody : String) (hasMedia : Bool) (mediaType : Option String) :
    Command :=
  parseChars messageBody.toList hasMedia (mediaType.map String.toList)

/-- `MessageParser.getHelpText` of `gemini-api.js`. -/
def getHelpText : String :=
  "Bus Times:\n\u2022 Send 6-digit stop code (e.g., 308209)\n\u2022 Add route to filter (e.g., 308209 B63)\n\nCalorie Tracking:\n\u2022 Send food description (e.g., \x222 eggs and toast\x22)\n\u2022 Send photo of food for estimation\n\u2022 \x22total\x22 - see today\x27s calories\n\u2022 \x22sub 50\x22 - subtract 50 calories\n\u2022 \x22reset calories\x22 - start fresh\n\nOther:\n\u2022 \x22how\x22 - show this message"

/-! ### `SessionManager` of `message-handler.js` (lines 48-84)

The JS `Map` keyed by phone number is embedded as a function
`String → Option SessionEntry`; `Date.now()` is passed explicitly in
milliseconds. -/

/-- One stored last-bus-query: `{stopCode, route, timestamp}`. -/
structure SessionEntry where
  stopCode : String
  route : Option String
  timestamp : Nat
deriving DecidableEq

/-- `this.timeout = 20 * 60 * 1000` (20 minutes, in milliseconds). -/
def sessionTimeout : Nat := 20 * 60 * 1000

/-- The session map of `SessionManager`. -/
structure SessionManager where
  sessions : String → Option SessionEntry

/-- A fresh `SessionManager` (empty `Map`). -/
def emptySessions : SessionManager := ⟨fun _ => none⟩

/-- `saveQuery(phoneNumber, stopCode, route)`, stamping `Date.now()`. -/
def saveQuery (m : SessionManager) (phoneNumber stopCode : String)
    (route : Option String) (now : Nat) : SessionManager :=
  ⟨fun p => if p = phoneNumber then some ⟨stopCode, route, now⟩ else m.sessions p⟩

/-- `getLastQuery(phoneNumber)`: returns the stored query and the updated
manager (an entry older than the timeout is deleted and reported absent). -/
def getLastQuery (m : SessionManager) (phoneNumber : String) (now : Nat) :
    Option (String × Option String) × SessionManager :=
  match m.sessions phoneNumber with
  | none => (none, m)
  | some s =>
    if sessionTimeout < now - s.timestamp then
      (none, ⟨fun p => if p = phoneNumber then none else m.sessions p⟩)
    else
      (some (s.stopCode, s.route), m)

/-! ### Daily calorie tracker of `calorie-tracker.js`

One `daily_calories` row per calendar date and a single
`settings['calorie_target']` row; neither table has a phone-number column.
The date key (`getTodayKey()`, Eastern-Time `YYYY-MM-DD`) is passed in as
an opaque string; the target round-trips through the settings table as the
integer it prints. -/

/-- `DEFAULT_TARGET = 1800`. -/
def DEFAULT_TARGET : Int := 1800

/-- The two tables of `calorie-tracker.js`. -/
structure CalDB where
  daily : String → Option Int
  targetSetting : Option Int

/-- Freshly created tables. -/
def emptyCalDB : CalDB := ⟨fun _ => none, none⟩

/-- Point update of the `daily_calories` table. -/
def setDaily (db : CalDB) (day : String) (v : Int) : CalDB :=
  { db with daily := fun d => if d = day then some v else db.daily d }

/-- `getTodayTotal()`: `rows[0]?.total || 0`. -/
def getTodayTotal (db : CalDB) (today : String) : Int :=
  match db.daily today with
  | some t => t
  | none => 0

/-- `addCalories(calories)`: upsert `total = total + $2` (or a fresh row at
the given amount), returning the new total. -/
def addCalories (db : CalDB) (today : String) (amount : Int) : Int × CalDB :=
  match db.daily today with
  | some t => (t + amount, setDaily db today (t + amount))
  | none => (amount, setDaily db today amount)

/-- `subtractCalories(calories)`: upsert inserting `0` for a missing row,
else `GREATEST(0, total - $2)`, returning the new total. -/
def subtractCalories (db : CalDB) (today : String) (amount : Int) : Int × CalDB :=
  match db.daily today with
  | some t => (max 0 (t - amount), setDaily db today (max 0 (t - amount)))
  | none => (0, setDaily db today 0)

/-- `resetToday()`: reads the current total, then upserts `0`; returns the
previous total. -/
def resetToday (db : CalDB) (today : String) : Int × CalDB :=
  (getTodayTotal db today, setDaily db today 0)

/-- `getTarget()`: the stored setting or `DEFAULT_TARGET`. -/
def getTarget (db : CalDB) : Int :=
  match db.targetSetting with
  | some v => v
  | none => DEFAULT_TARGET

/-- `setTarget(target)`: stores the rounded target and returns it. -/
def setTarget (db : CalDB) (target : Int) : Int × CalDB :=
  (target, { db with targetSetting := some target })

/-! ### Pending/active Uber ride store of `uber-pending.js`

Rows keyed by phone number; `created_at` is stored in milliseconds.
The `DECIMAL` pickup/destination coordinates are persistence detail not
touched by any claim and are kept as part of the stored addresses. -/

/-- A resolved address as read by the dispatcher (`pickup.address`). -/
structure Location where
  address : String
deriving DecidableEq

/-- The object `getPendingRide` rebuilds from a `pending_uber_rides` row. -/
structure PendingRide where
  pickup : Location
  destination : Location
  productId : String
  productName : String
  priceEstimate : String
deriving DecidableEq

/-- `EXPIRY_MINUTES = 10`, as milliseconds. -/
def pendingExpiryMs : Nat := 10 * 60 * 1000

/-- `savePendingRide`/`getPendingRide` interval check
`created_at > NOW() - INTERVAL '10 minutes'` on a stored row. -/
def pendingFresh (createdAt now : Nat) : Bool := now < createdAt + pendingExpiryMs

/-- The quote object as the dispatcher reads it
(`server.js` lines 305-325 and 471-476): the external browser-automation
collaborator's return value at the `await getUberQuote(...)` boundary. -/
structure UberQuote where
  requiresAuth : Bool
  requiresLogin : Bool
  availableProducts : Option (List String)
  productId : String
  productName : String
  priceEstimate : String
  eta : String
  pickup : Location
  destination : Location
deriving DecidableEq

/-- What `savePendingRide(phone, quote)` stores of a quote. -/
def quoteToRow (q : UberQuote) : PendingRide :=
  ⟨q.pickup, q.destination, q.productId, q.productName, q.priceEstimate⟩

/-- Modelled from the spec: the `pendingAuth` slot
(`{originalAction, originalParameters, capturedAt}`, spec section 3).
`savePendingAuth`/`getPendingAuth`/`clearPendingAuth` are imported by
`server.js` from `uber-pending.js` but are absent from that file in `src/`;
only their callers exist. Per spec section 4.2 the slot has a short TTL like
the pending-ride slot (about 10 minutes). -/
structure PendingAuth where
  action : String
  pickup : String
  destination : String
deriving DecidableEq

/-- The dispatcher-visible persistent state: the three Uber slots of
`uber-pending.js` (plus the spec-modelled auth slot) and the calorie DB. -/
structure ServerState where
  pendingRides : String → Option (PendingRide × Nat)
  activeRides : String → Option String
  pendingAuths : String → Option (PendingAuth × Nat)
  cal : CalDB

/-- Empty store. -/
def emptyServerState : ServerState :=
  ⟨fun _ => none, fun _ => none, fun _ => none, emptyCalDB⟩

/-- `getPendingRide(phone)`: the row if present and not expired. -/
def getPendingRide (st : ServerState) (phone : String) (now : Nat) :
    Option PendingRide :=
  match st.pendingRides phone with
  | some (r, t) => if pendingFresh t now then some r else none
  | none => none

/-- `savePendingRide(phone, quote)`: upsert with `created_at = NOW()`. -/
def savePendingRide (st : ServerState) (phone : String) (q : UberQuote) (now : Nat) :
    ServerState :=
  { st with pendingRides := fun p => if p = phone then some (quoteToRow q, now) else st.pendingRides p }

/-- `clearPendingRide(phone)`. -/
def clearPendingRide (st : ServerState) (phone : String) : ServerState :=
  { st with pendingRides := fun p => if p = phone then none else st.pendingRides p }

/-- `getActiveRide(phone)`: no TTL check. -/
def getActiveRide (st : ServerState) (phone : String) : Option String :=
  st.activeRides phone

/-- `saveActiveRide(phone, requestId)`. -/
def saveActiveRide (st : ServerState) (phone requestId : String) : ServerState :=
  { st with activeRides := fun p => if p = phone then some requestId else st.activeRides p }

/-- `clearActiveRide(phone)`. -/
def clearActiveRide (st : ServerState) (phone : String) : ServerState :=
  { st with activeRides := fun p => if p = phone then none else st.activeRides p }

/-- Modelled from the spec: `getPendingAuth(phone)` with the short TTL of
spec section 4.2 enforced lazily at read time. -/
def getPendingAuth (st : ServerState) (phone : String) (now : Nat) :
    Option PendingAuth :=
  match st.pendingAuths phone with
  | some (a, t) => if pendingFresh t now then some a else none
  | none => none

/-- Modelled from the spec: `savePendingAuth(phone, action, params)`. -/
def savePendingAuth (st : ServerState) (phone action pickup destination : String)
    (now : Nat) : ServerState :=
  { st with pendingAuths := fun p =>
      if p = phone then some (⟨action, pickup, destination⟩, now) else st.pendingAuths p }

/-- Modelled from the spec: `clearPendingAuth(phone)`. -/
def clearPendingAuth (st : ServerState) (phone : String) : ServerState :=
  { st with pendingAuths := fun p => if p = phone then none else st.pendingAuths p }

/-! ### `confirmUberRide` of `uber-agent.js` (lines 269-438)

The browser-automation agent loop is an external interaction; its final
JSON reply is the `agentResult` parameter. Everything deterministic around
it — product selection, the `price_exceeded` branch and the error/return
construction (lines 364-387) — is embedded as written. The `$3` price
tolerance itself lives in the prompt text the agent executes. -/

/-- One entry of the quote's `products` array. -/
structure UberProduct where
  name : String
  price : String
  eta : String
deriving DecidableEq

/-- The pending-ride object `confirmUberRide` expects (a quote carrying a
`products` array and resolved addresses). -/
structure AgentQuoteInput where
  products : List UberProduct
  pickup : Location
  destination : Location
deriving DecidableEq

/-- The agent's final booking JSON (`success`, optional `error` tag,
prices, driver data). -/
structure AgentBookResult where
  success : Bool
  error : Option String
  message : Option String
  currentPrice : Option String
  driverName : Option String
  vehicle : Option String
  eta : Option String
  requestId : Option String
deriving DecidableEq

/-- The confirmation object returned to the dispatcher. -/
structure Ride where
  requestId : String
  driverName : String
  vehicle : String
  eta : String
  price : String
deriving DecidableEq

/-- `confirmUberRide(pendingRide, productIndex)` around the agent's final
reply: a thrown `Error` is an `Except.error` carrying its message. -/
def confirmUberRide (pendingRide : AgentQuoteInput) (productIndex : Nat)
    (now : Nat) (agentResult : AgentBookResult) : Except String Ride :=
  match pendingRide.products.get? productIndex with
  | none => .error "Invalid product selection"
  | some product =>
    if agentResult.success = false then
      if agentResult.error = some "price_exceeded" then
        .error ("Price increased to " ++ showOpt agentResult.currentPrice ++
          " (was " ++ product.price ++ "). Booking cancelled.")
      else
        .error (orElseStr agentResult.message "Booking failed")
    else
      .ok
        { requestId := orElseStr agentResult.requestId ("uber-" ++ toString now)
          driverName := orElseStr agentResult.driverName "Driver assigned"
          vehicle := orElseStr agentResult.vehicle "Vehicle assigned"
          eta := orElseStr agentResult.eta "Arriving soon"
          price := orElseStr agentResult.currentPrice product.price }

/-! ### Response formatters (`gemini-api.js` `formatAsText`, `mta-api.js`
`formatAsText`) -/

/-- One item of a parsed calorie estimate. -/
structure CalorieItem where
  name : String
  calories : Int
  portion : String
deriving DecidableEq

/-- The parsed estimate object built by `GeminiCalorieAPI.parseResponse`. -/
structure CalorieResult where
  success : Bool
  items : List CalorieItem
  totalCalories : Option Int
  confidence : String
  notes : Option String
  originalInput : String
deriving DecidableEq

/-- JS template interpolation of a possibly-undefined number. -/
def showOptInt (a : Option Int) : String :=
  match a with
  | some n => toString n
  | none => "undefined"

/-- `GeminiCalorieAPI.formatAsText(result)` (`gemini-api.js` lines 159-188). -/
def geminiFormatAsText (r : CalorieResult) : String :=
  if r.success = false then
    "Sorry, I couldn\x27t estimate calories for \x22" ++ r.originalInput ++
      "\x22. Try being more specific (e.g., \x222 scrambled eggs\x22 instead of \x22eggs\x22)."
  else
    let base :=
      match r.items with
      | [item] =>
        item.name ++ " (" ++ item.portion ++ "): ~" ++ toString item.calories ++ " cal"
      | items =>
        (items.foldl (fun acc item =>
          acc ++ item.name ++ ": ~" ++ toString item.calories ++ " cal\n") "") ++
        "\nTotal: ~" ++ showOptInt r.totalCalories ++ " cal"
    let base := if r.confidence = "low" then
        base ++ "\n\n(Estimate uncertain - try being more specific)"
      else base
    match r.notes with
    | some ns => if ns ≠ "" ∧ ns.length < 80 then base ++ "\n\n" ++ ns else base
    | none => base

/-- One arrival of the parsed MTA response. -/
structure Arrival where
  route : String
  destination : String
  stopsAway : Nat
  hasRealtimeData : Bool
deriving DecidableEq

/-- The parsed MTA response consumed by `MTABusAPI.formatAsText`. -/
structure BusData where
  found : Bool
  stopName : String
  arrivals : List Arrival
deriving DecidableEq

/-- One line of the arrivals list. -/
def mtaArrivalText (a : Arrival) : String :=
  "Route " ++ a.route ++ " to " ++ a.destination ++ " - " ++
  (if a.stopsAway = 0 then "arriving now"
   else toString a.stopsAway ++ " stop" ++ (if 1 < a.stopsAway then "s" else "") ++ " away") ++
  (if a.hasRealtimeData then "" else " (scheduled time)")

/-- `MTABusAPI.formatAsText(parsedData, maxResults = 3)`
(`mta-api.js` lines 79-110). -/
def mtaFormatAsText (d : BusData) : String :=
  if d.found = false ∨ d.arrivals.length = 0 then
    "No buses found arriving at this stop right now. Please check your stop code and try again, or visit bustime.mta.info for more info."
  else
    "Bus arrivals at " ++ d.stopName ++ ":\n\n" ++
    String.intercalate "\n\n" ((d.arrivals.take 3).map mtaArrivalText) ++
    (if 3 < d.arrivals.length then
      "\n\n(Showing 3 of " ++ toString d.arrivals.length ++ " buses)"
    else "")

/-! ### The SMS dispatcher (`server.js`, `app.post('/sms')`, lines 180-527)

Each `await` of an external collaborator is one oracle field: `.ok` is the
resolved value, `.error` the thrown error's message. The handler's response
is the list of TwiML messages of the webhook reply; the detached
continuations' `sendAsyncSMS(to, from, body)` calls are collected as
`(to, from, body)` triples; collaborator invocations are recorded in
order. -/

/-- Ride status as the dispatcher reads it. -/
structure RideStatus where
  status : String
  driverName : Option String
  eta : Option String
deriving DecidableEq

/-- Result of `enterUberAuthCode`: a fresh quote (`result.pickup` truthy)
or a bare login success. -/
inductive AuthResult where
  | quote (q : UberQuote)
  | loggedIn
deriving DecidableEq

/-- One collaborator invocation class. -/
inductive CollabCall where
  | mta
  | geminiText
  | geminiImage
  | geminiSuggest
  | mediaFetch
  | uberQuote
  | uberConfirm
  | uberStatus
  | uberCancel
  | uberAuth
deriving DecidableEq

/-- The outcomes of the collaborator calls a single request may perform. -/
structure Oracles where
  mta : Except String BusData
  geminiText : Except String CalorieResult
  geminiImage : Except String CalorieResult
  geminiSuggest : Except String String
  mediaFetch : Except String Unit
  uberQuote : Except String UberQuote
  uberConfirm : Except String Ride
  uberStatus : Except String RideStatus
  uberCancel : Except String Unit
  uberAuth : Except String AuthResult

/-- Everything one inbound message produces. -/
structure SmsOutcome where
  twiml : List String
  asyncMsgs : List (String × String × String)
  calls : List CollabCall
  state : ServerState

/-- The fixed apology of the catch at `server.js` lines 517-520. -/
def apologyText : String :=
  "Sorry, there was an error processing your request. Please try again later."

/-- `quote.availableProducts?.slice(0, 4).join(', ') || 'UberX'`. -/
def productsOr (ap : Option (List String)) : String :=
  match ap with
  | some l => strOr (String.intercalate ", " (l.take 4)) "UberX"
  | none => "UberX"

/-- Body of the quote message for a successful, logged-in quote. -/
def quoteMsg (q : UberQuote) : String :=
  q.productName ++ ": " ++ q.priceEstimate ++ ", " ++ q.eta ++
  " pickup\n\nFrom: " ++ q.pickup.address ++ "\nTo: " ++ q.destination.address ++
  "\n\nReply \x22uber confirm\x22 to book."

/-- Body of the quote message when prices require an Uber login. -/
def quoteLoginMsg (q : UberQuote) : String :=
  "Uber available: " ++ productsOr q.availableProducts ++
  "\n\nFrom: " ++ q.pickup.address ++ "\nTo: " ++ q.destination.address ++
  "\n\nPrices require Uber login. Open Uber app to book."

/-- `app.post('/sms')` of `server.js` (lines 180-527), one command,
case by case in source order. `fromNumber` is the sender, `toNumber` the
Twilio number (`req.body.To`), `today` the calorie date key, `now` the
clock in milliseconds. -/
def handleSms (cmd : Command) (fromNumber toNumber : String) (st : ServerState)
    (o : Oracles) (today : String) (now : Nat) : SmsOutcome :=
  match cmd with
  | .help => ⟨[getHelpText], [], [], st⟩
  | .reset_calories =>
    let r := resetToday st.cal today
    ⟨["Daily calories reset. Previous total was " ++ toString r.1 ++ " cal."],
      [], [], { st with cal := r.2 }⟩
  | .total =>
    ⟨["Today\x27s total: " ++ toString (getTodayTotal st.cal today) ++ " / " ++
        toString (getTarget st.cal) ++ " cal"], [], [], st⟩
  | .subtract amount =>
    let r := subtractCalories st.cal today (amount : Int)
    ⟨["Subtracted " ++ toString amount ++ " cal.\n\nDaily total: " ++
        toString r.1 ++ " / " ++ toString (getTarget st.cal) ++ " cal"],
      [], [], { st with cal := r.2 }⟩
  | .set_target amount =>
    let r := setTarget st.cal (amount : Int)
    ⟨["Daily target set to " ++ toString r.1 ++ " cal."], [], [], { st with cal := r.2 }⟩
  | .suggestions _ _ =>
    match o.geminiSuggest with
    | .ok s => ⟨[s], [], [.geminiSuggest], st⟩
    | .error _ => ⟨[apologyText], [], [.geminiSuggest], st⟩
  | .image_calorie _ =>
    match o.mediaFetch with
    | .error _ => ⟨[apologyText], [], [.mediaFetch], st⟩
    | .ok _ =>
      match o.geminiImage with
      | .error _ => ⟨[apologyText], [], [.mediaFetch, .geminiImage], st⟩
      | .ok cd =>
        let base := geminiFormatAsText cd
        match cd.totalCalories with
        | some tc =>
          if cd.success = true ∧ tc ≠ 0 then
            let r := addCalories st.cal today tc
            ⟨[base ++ "\n\nDaily total: " ++ toString r.1 ++ " / " ++
                toString (getTarget st.cal) ++ " cal"],
              [], [.mediaFetch, .geminiImage], { st with cal := r.2 }⟩
          else ⟨[base], [], [.mediaFetch, .geminiImage], st⟩
        | none => ⟨[base], [], [.mediaFetch, .geminiImage], st⟩
  | .refresh =>
    ⟨["Refresh not available. Please send your stop code again."], [], [], st⟩
  | .stop_query _ _ =>
    match o.mta with
    | .ok data =>
      ⟨[mtaFormatAsText data ++ "\n\nText \x22how\x22 for all commands."], [], [.mta], st⟩
    | .error _ => ⟨[apologyText], [], [.mta], st⟩
  | .service_changes route =>
    ⟨["Service changes for " ++ route ++
        ": Feature coming soon. Check mta.info for current alerts."], [], [], st⟩
  | .uber_quote pickup destination =>
    let ack := "Getting Uber quote... (this may take a moment)"
    match o.uberQuote with
    | .error e =>
      ⟨[ack],
        [(fromNumber, toNumber, strOr e "Could not get Uber quote. Check your addresses.")],
        [.uberQuote], st⟩
    | .ok q =>
      if q.requiresAuth = true then
        ⟨[ack],
          [(fromNumber, toNumber,
            "Uber needs SMS verification. Check your texts from Uber, then reply: uber auth <code>")],
          [.uberQuote], savePendingAuth st fromNumber "quote" pickup destination now⟩
      else
        ⟨[ack],
          [(fromNumber, toNumber, if q.requiresLogin = true then quoteLoginMsg q else quoteMsg q)],
          [.uberQuote], savePendingRide st fromNumber q now⟩
  | .uber_confirm =>
    match getPendingRide st fromNumber now with
    | none =>
      ⟨["No pending Uber ride. Text \x22uber [pickup] to [destination]\x22 first."],
        [], [], st⟩
    | some _ =>
      let ack := "Booking your Uber... (this may take a moment)"
      match o.uberConfirm with
      | .ok ride =>
        ⟨[ack],
          [(fromNumber, toNumber,
            "Uber booked!\n\nDriver: " ++ ride.driverName ++ "\nVehicle: " ++
            ride.vehicle ++ "\nETA: " ++ ride.eta ++
            "\n\nText \x22uber status\x22 for updates.")],
          [.uberConfirm],
          clearPendingRide (saveActiveRide st fromNumber ride.requestId) fromNumber⟩
      | .error e =>
        ⟨[ack], [(fromNumber, toNumber, strOr e "Could not book Uber. Try again.")],
          [.uberConfirm], st⟩
  | .uber_status =>
    match getActiveRide st fromNumber with
    | none =>
      match getPendingRide st fromNumber now with
      | some p =>
        ⟨["Pending: " ++ p.productName ++ " " ++ p.priceEstimate ++
            "\nFrom: " ++ p.pickup.address ++ "\nTo: " ++ p.destination.address ++
            "\n\nReply \x22uber confirm\x22 to book."], [], [], st⟩
      | none =>
        ⟨["No active Uber ride. Text \x22uber [pickup] to [destination]\x22 to get started."],
          [], [], st⟩
    | some _ =>
      let ack := "Checking ride status..."
      match o.uberStatus with
      | .ok s =>
        let msg := "Uber Status: " ++ s.status ++ "\n\nDriver: " ++
          orElseStr s.driverName "Assigned" ++ "\nETA: " ++
          orElseStr s.eta "Calculating..."
        let st2 :=
          if s.status = "completed" ∨ s.status = "rider_canceled" ∨
              s.status = "driver_canceled" then
            clearActiveRide st fromNumber
          else st
        ⟨[ack], [(fromNumber, toNumber, msg)], [.uberStatus], st2⟩
      | .error _ =>
        ⟨[ack], [(fromNumber, toNumber, "Could not get ride status.")], [.uberStatus], st⟩
  | .uber_cancel =>
    match getActiveRide st fromNumber with
    | some _ =>
      let ack := "Canceling your Uber..."
      match o.uberCancel with
      | .ok _ =>
        ⟨[ack], [(fromNumber, toNumber, "Uber ride canceled.")], [.uberCancel],
          clearActiveRide st fromNumber⟩
      | .error e =>
        ⟨[ack], [(fromNumber, toNumber, strOr e "Could not cancel ride.")],
          [.uberCancel], st⟩
    | none =>
      match getPendingRide st fromNumber now with
      | some _ =>
        ⟨["Pending Uber request cleared."], [], [], clearPendingRide st fromNumber⟩
      | none => ⟨["No active or pending Uber ride to cancel."], [], [], st⟩
  | .uber_auth _ =>
    match getPendingAuth st fromNumber now with
    | none =>
      ⟨["No pending Uber auth. Request a ride first with \x22uber [pickup] to [destination]\x22."],
        [], [], st⟩
    | some _ =>
      let ack := "Entering auth code..."
      match o.uberAuth with
      | .ok (.quote q) =>
        let st2 := savePendingRide (clearPendingAuth st fromNumber) fromNumber q now
        let msg := if q.requiresLogin = true then
            "Uber available: " ++ productsOr q.availableProducts ++
            "\n\nFrom: " ++ q.pickup.address ++ "\nTo: " ++ q.destination.address ++
            "\n\nPrices require Uber login."
          else quoteMsg q
        ⟨[ack], [(fromNumber, toNumber, msg)], [.uberAuth], st2⟩
      | .ok .loggedIn =>
        ⟨[ack], [(fromNumber, toNumber, "Logged into Uber! Now try your request again.")],
          [.uberAuth], clearPendingAuth st fromNumber⟩
      | .error e =>
        ⟨[ack], [(fromNumber, toNumber, strOr e "Auth failed. Try again.")],
          [.uberAuth], st⟩
  | .food_query _ =>
    match o.geminiText with
    | .error _ => ⟨[apologyText], [], [.geminiText], st⟩
    | .ok cd =>
      let base := geminiFormatAsText cd
      match cd.totalCalories with
      | some tc =>
        if cd.success = true ∧ tc ≠ 0 then
          let r := addCalories st.cal today tc
          ⟨[base ++ "\n\nDaily total: " ++ toString r.1 ++ " / " ++
              toString (getTarget st.cal) ++ " cal"],
            [], [.geminiText], { st with cal := r.2 }⟩
        else ⟨[base], [], [.geminiText], st⟩
      | none => ⟨[base], [], [.geminiText], st⟩
  | .error message =>
    ⟨[strOr message errorHint], [], [], st⟩

/-! ### Spec-modelled Uber-capable parser

`server.js` dispatches `uber_quote`/`uber_confirm`/`uber_status`/
`uber_cancel`/`uber_auth` commands, but no parser under `src/` produces
them: the parser variant carrying the Uber sub-grammar is missing from the
repository snapshot (only its callers exist). The definitions below model
that missing rule from the spec's words alone. -/

/-- Position of the first occurrence of `pat` in a char list. -/
def findInfixPos (pat : List Char) : List Char → Option Nat
  | [] => if pat.isPrefixOf ([] : List Char) then some 0 else none
  | c :: cs =>
    if pat.isPrefixOf (c :: cs) then some 0
    else (findInfixPos pat cs).map (fun n => n + 1)

/-- Modelled from the spec: the Uber sub-grammar of spec section 4.1 rule 9,
applied to a trimmed message known to start (case-insensitively) with
`uber `. The spec lists the forms in this order:
`uber <pickup> to <destination>` → `uber_quote`, `uber confirm`,
`uber status`, `uber cancel`, `uber auth <code>`; text matching none of
them falls to the `error` help hint the spec uses for unmatched input. -/
def uberRule (trimmed : List Char) : Command :=
  let rest := trimmed.drop 5
  let restLower := (lowerChars trimmed).drop 5
  match findInfixPos (" to ".toList) restLower with
  | some i =>
    .uber_quote ⟨trimChars (rest.take i)⟩ ⟨trimChars (rest.drop (i + 4))⟩
  | none =>
    if restLower = "confirm".toList then .uber_confirm
    else if restLower = "status".toList then .uber_status
    else if restLower = "cancel".toList then .uber_cancel
    else if ("auth ".toList).isPrefixOf restLower then
      .uber_auth ⟨trimChars (rest.drop 5)⟩
    else .error errorHint

/-- Modelled from the spec: the full parser of spec section 4.1 — the parser
of `gemini-api.js` with rule 9 (the Uber sub-grammar) inserted where the
spec's numbered precedence places it, after the stop-code rule 8 and before
the food fallback 10. -/
def parseSpecChars (body : List Char) (hasMedia : Bool)
    (mediaType : Option (List Char)) : Command :=
  let trimmed := trimChars body
  let lower := lowerChars trimmed
  if lower = "how".toList ∨ lower = "?".toList then .help
  else if lower = "reset calories".toList then .reset_calories
  else if lower = "total".toList then .total
  else
    match subMatch lower with
    | some amount => .subtract amount
    | none =>
      if hasMedia && mediaIsImage mediaType then .image_calorie ⟨trimmed⟩
      else if lower = "r".toList ∨ lower = "refresh".toList then .refresh
      else if ("c ".toList).isPrefixOf lower then
        .service_changes ⟨(trimChars (trimmed.drop 2)).map Char.toUpper⟩
      else
        match stopMatch trimmed with
        | some (code, route) =>
          .stop_query ⟨code⟩ (route.map fun r => ⟨r.map Char.toUpper⟩)
        | none =>
          if ("uber ".toList).isPrefixOf lower then uberRule trimmed
          else if 2 ≤ trimmed.length then .food_query ⟨trimmed⟩
          else .error errorHint

/-- Modelled from the spec: `parse` with the Uber sub-grammar (section 4.1). -/
def parseSpec (messageBody : String) (hasMedia : Bool) (mediaType : Option String) :
    Command :=
  parseSpecChars messageBody.toList hasMedia (mediaType.map String.toList)

example : parseSpec "uber times square to jfk" false none =
    .uber_quote "times square" "jfk" := by decide

example : parseSpec "uber confirm" false none = .uber_confirm := by decide

example : parseSpec "uber auth 4821" false none = .uber_auth "4821" := by decide

example : parseSpec "uber auth 482193" false none = .stop_query "482193" none := by
  decide

/-! ### Lemmas about the stop-code rule -/

/-- The text contains six consecutive decimal digits. -/
def hasSixDigitRun : List Char → Bool
  | [] => false
  | c :: cs =>
    (((c :: cs).take 6).length == 6 && ((c :: cs).take 6).all Char.isDigit)
      || hasSixDigitRun cs

theorem digit_not_ws {c : Char} (h : c.isDigit = true) : c.isWhitespace = false := by
  cases hw : c.isWhitespace
  · rfl
  · exfalso
    have hw' : ((c = ' ' ∨ c = '\t') ∨ c = '\x0d') ∨ c = '\n' := by
      simpa [Char.isWhitespace, Bool.or_eq_true_iff, decide_eq_true_eq] using hw
    rw [or_assoc, or_assoc] at hw'
    rcases hw' with h1 | h1 | h1 | h1 <;> rw [h1] at h <;> exact absurd h (by decide)

theorem optOr_eq_some {a b : Option α} {v : α} (h : optOr a b = some v) :
    a = some v ∨ b = some v := by
  cases a with
  | none => exact Or.inr h
  | some x => exact Or.inl h

theorem optOr_isSome_left {a b : Option α} (h : a.isSome = true) :
    (optOr a b).isSome = true := by
  cases a with
  | none => exact absurd h (by simp)
  | some x => rfl

theorem optOr_isSome_right {a b : Option α} (h : b.isSome = true) :
    (optOr a b).isSome = true := by
  cases a with
  | none => exact h
  | some x => rfl

theorem wsDigits_spec {cs code rest : List Char} (h : wsDigits cs = some (code, rest)) :
    code.length = 6 ∧ code.all Char.isDigit = true ∧ code <:+: cs := by
  simp only [wsDigits] at h
  split at h
  · rename_i hc
    injection h with h1
    injection h1 with hcode hrest
    subst hcode
    refine ⟨hc.1, hc.2, ?_⟩
    have h1 : (cs.dropWhile Char.isWhitespace).take 6 <+: cs.dropWhile Char.isWhitespace :=
      List.take_prefix 6 _
    have h2 : cs.dropWhile Char.isWhitespace <:+ cs := List.dropWhile_suffix _
    exact h1.isInfix.trans h2.isInfix
  · cases h

theorem tryVerb_spec {v cs code rest : List Char} (h : tryVerb v cs = some (code, rest)) :
    code.length = 6 ∧ code.all Char.isDigit = true ∧ code <:+: cs := by
  unfold tryVerb at h
  split at h
  · have hs := wsDigits_spec h
    exact ⟨hs.1, hs.2.1, hs.2.2.trans (List.drop_suffix _ _).isInfix⟩
  · cases h

theorem tryAt_spec {cs code rest : List Char} (h : tryAt cs = some (code, rest)) :
    code.length = 6 ∧ code.all Char.isDigit = true ∧ code <:+: cs := by
  unfold tryAt at h
  rcases optOr_eq_some h with h | h
  · exact tryVerb_spec h
  rcases optOr_eq_some h with h | h
  · exact tryVerb_spec h
  rcases optOr_eq_some h with h | h
  · exact tryVerb_spec h
  rcases optOr_eq_some h with h | h
  · exact tryVerb_spec h
  rcases optOr_eq_some h with h | h
  · exact tryVerb_spec h
  rcases optOr_eq_some h with h | h
  · exact tryVerb_spec h
  rcases optOr_eq_some h with h | h
  · exact tryVerb_spec h
  exact wsDigits_spec h

theorem scanStop_spec : ∀ {l code rest : List Char},
    scanStop l = some (code, rest) →
    code.length = 6 ∧ code.all Char.isDigit = true ∧ code <:+: l
  | [], _, _, h => by simp [scanStop] at h
  | c :: cs, code, rest, h => by
    simp only [scanStop] at h
    rcases optOr_eq_some h with h | h
    · exact tryAt_spec h
    · have ih := scanStop_spec h
      exact ⟨ih.1, ih.2.1, ih.2.2.trans (List.suffix_cons c cs).isInfix⟩

theorem wsDigits_isSome {c : Char} {cs : List Char}
    (h6 : ((c :: cs).take 6).length = 6)
    (hd : ((c :: cs).take 6).all Char.isDigit = true) :
    (wsDigits (c :: cs)).isSome = true := by
  have hcmem : c ∈ (c :: cs).take 6 := by
    rw [List.take_succ_cons]
    exact List.mem_cons_self c _
  have hc : c.isDigit = true := List.all_eq_true.mp hd c hcmem
  unfold wsDigits
  rw [List.dropWhile_cons, digit_not_ws hc]
  simp only [Bool.false_eq_true, if_false]
  rw [if_pos ⟨h6, hd⟩]
  rfl

theorem tryAt_isSome {cs : List Char} (h : (wsDigits cs).isSome = true) :
    (tryAt cs).isSome = true := by
  unfold tryAt
  exact optOr_isSome_right (optOr_isSome_right (optOr_isSome_right
    (optOr_isSome_right (optOr_isSome_right (optOr_isSome_right
      (optOr_isSome_right h))))))

theorem scanStop_isSome {l : List Char} (h : hasSixDigitRun l = true) :
    (scanStop l).isSome = true := by
  induction l with
  | nil => simp [hasSixDigitRun] at h
  | cons c cs ih =>
    rw [hasSixDigitRun] at h
    rcases Bool.or_eq_true_iff.mp h with h | h
    · rcases Bool.and_eq_true_iff.mp h with ⟨h6, hd⟩
      have h6' : ((c :: cs).take 6).length = 6 := by
        have := beq_iff_eq.mp h6
        exact this
      simp only [scanStop]
      exact optOr_isSome_left (tryAt_isSome (wsDigits_isSome h6' hd))
    · simp only [scanStop]
      exact optOr_isSome_right (ih h)

theorem hasSixDigitRun_cons_of {c : Char} {l : List Char}
    (h6 : ((c :: l).take 6).length = 6)
    (hd : ((c :: l).take 6).all Char.isDigit = true) :
    hasSixDigitRun (c :: l) = true := by
  rw [hasSixDigitRun]
  have hb : (((c :: l).take 6).length == 6) = true := beq_iff_eq.mpr h6
  rw [hb, hd]
  rfl

theorem hasSixDigitRun_cons_tail (c : Char) {l : List Char}
    (h : hasSixDigitRun l = true) : hasSixDigitRun (c :: l) = true := by
  rw [hasSixDigitRun]
  simp [h]

theorem hasSixDigitRun_of_inf {code l : List Char} (h6 : code.length = 6)
    (hd : code.all Char.isDigit = true) (hin : code <:+: l) :
    hasSixDigitRun l = true := by
  obtain ⟨s, t, rfl⟩ := hin
  induction s with
  | nil =>
    cases code with
    | nil => simp at h6
    | cons c cs =>
      simp only [List.nil_append]
      have ht : ((c :: cs) ++ t).take 6 = c :: cs := List.take_left' h6
      rw [List.cons_append]
      have e : (c :: (cs ++ t)).take 6 = c :: cs := by rw [← List.cons_append]; exact ht
      exact hasSixDigitRun_cons_of (by rw [e]; exact h6) (by rw [e]; exact hd)
  | cons a s ih =>
    simp only [List.cons_append]
    exact hasSixDigitRun_cons_tail a (by simpa using ih)

theorem trimChars_inf (l : List Char) : trimChars l <:+: l := by
  unfold trimChars
  have h1 : l.dropWhile Char.isWhitespace <:+ l := List.dropWhile_suffix _
  have h2 : (l.dropWhile Char.isWhitespace).reverse.dropWhile Char.isWhitespace <:+
      (l.dropWhile Char.isWhitespace).reverse := List.dropWhile_suffix _
  have h3 : ((l.dropWhile Char.isWhitespace).reverse.dropWhile Char.isWhitespace).reverse <+:
      l.dropWhile Char.isWhitespace := by
    refine List.reverse_suffix.mp ?_
    simpa using h2
  exact h3.isInfix.trans h1.isInfix

theorem stopMatch_spec {l code : List Char} {r : Option (List Char)}
    (h : stopMatch l = some (code, r)) :
    code.length = 6 ∧ code.all Char.isDigit = true ∧ code <:+: l := by
  unfold stopMatch at h
  cases hs : scanStop l with
  | none => rw [hs] at h; cases h
  | some pr =>
    obtain ⟨code0, rest⟩ := pr
    rw [hs] at h
    have hspec := scanStop_spec hs
    simp only at h
    split at h <;> (cases h; exact hspec)

theorem stopMatch_isSome {l : List Char} (h : hasSixDigitRun l = true) :
    (stopMatch l).isSome = true := by
  have hs := scanStop_isSome h
  unfold stopMatch
  cases hsc : scanStop l with
  | none => rw [hsc] at hs; simp at hs
  | some pr =>
    obtain ⟨c0, r0⟩ := pr
    simp only
    split <;> rfl

theorem stopMatch_eq_none {l : List Char} (h : hasSixDigitRun l = false) :
    stopMatch l = none := by
  cases hsm : stopMatch l with
  | none => rfl
  | some pr =>
    obtain ⟨code, r⟩ := pr
    have hspec := stopMatch_spec hsm
    have h6 := hasSixDigitRun_of_inf hspec.1 hspec.2.1 hspec.2.2
    rw [h6] at h
    cases h

/-- Stepping lemma: when none of the parser's rules 1-7 fires, `parseChars`
reaches the stop-code rule and then the fallbacks, in source order. -/
theorem parseChars_past7 (body : List Char) (hm : Bool) (mt : Option (List Char))
    (h1 : lowerChars (trimChars body) ≠ "how".toList)
    (h2 : lowerChars (trimChars body) ≠ "?".toList)
    (h3 : lowerChars (trimChars body) ≠ "reset calories".toList)
    (h4 : lowerChars (trimChars body) ≠ "total".toList)
    (h5 : subMatch (lowerChars (trimChars body)) = none)
    (h6 : (hm && mediaIsImage mt) = false)
    (h7 : lowerChars (trimChars body) ≠ "r".toList)
    (h8 : lowerChars (trimChars body) ≠ "refresh".toList)
    (h9 : (("c ".toList).isPrefixOf (lowerChars (trimChars body))) = false) :
    parseChars body hm mt =
      match stopMatch (trimChars body) with
      | some (code, route) =>
        .stop_query ⟨code⟩ (route.map fun r => ⟨r.map Char.toUpper⟩)
      | none =>
        if 2 ≤ (trimChars body).length then .food_query ⟨trimChars body⟩
        else .error errorHint := by
  simp only [parseChars, h1, h2, h3, h4, h5, h6, h7, h8, h9, or_self, if_false,
    Bool.false_eq_true, ite_false]

/-- Stepping lemma for the spec-modelled parser: identical to
`parseChars_past7` but with the Uber sub-grammar between the stop-code rule
and the food fallback. -/
theorem parseSpecChars_past7 (body : List Char) (hm : Bool) (mt : Option (List Char))
    (h1 : lowerChars (trimChars body) ≠ "how".toList)
    (h2 : lowerChars (trimChars body) ≠ "?".toList)
    (h3 : lowerChars (trimChars body) ≠ "reset calories".toList)
    (h4 : lowerChars (trimChars body) ≠ "total".toList)
    (h5 : subMatch (lowerChars (trimChars body)) = none)
    (h6 : (hm && mediaIsImage mt) = false)
    (h7 : lowerChars (trimChars body) ≠ "r".toList)
    (h8 : lowerChars (trimChars body) ≠ "refresh".toList)
    (h9 : (("c ".toList).isPrefixOf (lowerChars (trimChars body))) = false) :
    parseSpecChars body hm mt =
      match stopMatch (trimChars body) with
      | some (code, route) =>
        .stop_query ⟨code⟩ (route.map fun r => ⟨r.map Char.toUpper⟩)
      | none =>
        if ("uber ".toList).isPrefixOf (lowerChars (trimChars body)) then
          uberRule (trimChars body)
        else if 2 ≤ (trimChars body).length then .food_query ⟨trimChars body⟩
        else .error errorHint := by
  simp only [parseSpecChars, h1, h2, h3, h4, h5, h6, h7, h8, h9, or_self, if_false,
    Bool.false_eq_true, ite_false]

theorem uberRule_ne_food (tr : List Char) (d : String) :
    uberRule tr ≠ .food_query d := by
  simp only [uberRule]
  split
  · intro h; cases h
  · split
    · intro h; cases h
    · split
      · intro h; cases h
      · split
        · intro h; cases h
        · split
          · intro h; cases h
          · intro h; cases h

/-! ### Claim theorems: the parser -/

/-- C7: parser precedence on the spec's examples: `"sub 20"` is `subtract 20`
and never `food_query`; `""` and `"a"` are the `error` command;
`"2 eggs and toast"` is a `food_query` carrying the trimmed text. -/
theorem parser_precedence_examples :
    parse "sub 20" false none = .subtract 20 ∧
    (∀ d, parse "sub 20" false none ≠ .food_query d) ∧
    parse "" false none = .error errorHint ∧
    parse "a" false none = .error errorHint ∧
    parse "2 eggs and toast" false none = .food_query "2 eggs and toast" := by
  refine ⟨by decide, ?_, by decide, by decide, by decide⟩
  intro d h
  rw [show parse "sub 20" false none = .subtract 20 by decide] at h
  cases h

/-- C5: for every input string, media flag and mime type, `parse` yields
exactly one command (it is a total, deterministic function and never
throws), and input matched by no rule yields the `error` command. -/
theorem parse_total_deterministic :
    ∀ (s : String) (hm : Bool) (mt : Option String),
      (∃! c, parse s hm mt = c) ∧
      (lowerChars (trimChars s.toList) ≠ "how".toList →
       lowerChars (trimChars s.toList) ≠ "?".toList →
       lowerChars (trimChars s.toList) ≠ "reset calories".toList →
       lowerChars (trimChars s.toList) ≠ "total".toList →
       subMatch (lowerChars (trimChars s.toList)) = none →
       (hm && mediaIsImage (mt.map String.toList)) = false →
       lowerChars (trimChars s.toList) ≠ "r".toList →
       lowerChars (trimChars s.toList) ≠ "refresh".toList →
       (("c ".toList).isPrefixOf (lowerChars (trimChars s.toList))) = false →
       stopMatch (trimChars s.toList) = none →
       (trimChars s.toList).length < 2 →
       parse s hm mt = .error errorHint) := by
  intro s hm mt
  refine ⟨⟨parse s hm mt, rfl, fun c h => h.symm⟩, ?_⟩
  intro h1 h2 h3 h4 h5 h6 h7 h8 h9 h10 h11
  have hstep := parseChars_past7 s.toList hm (mt.map String.toList)
    h1 h2 h3 h4 h5 h6 h7 h8 h9
  show parseChars s.toList hm (mt.map String.toList) = _
  rw [hstep, h10, if_neg (by omega)]

/-- C5 witness: the empty message matches no rule and parses to `error`. -/
theorem parse_total_deterministic_witness :
    (∃! c, parse "" false none = c) ∧ parse "" false none = .error errorHint := by
  have h := parse_total_deterministic "" false none
  exact ⟨h.1, h.2 (by decide) (by decide) (by decide) (by decide) (by decide)
    (by decide) (by decide) (by decide) (by decide) (by decide) (by decide)⟩

/-- C6: a message containing six consecutive digits that matches none of
the earlier rules (help, reset calories, total, sub, image, refresh,
service changes) parses to `stop_query`, the stop code being such a
six-digit substring of the text; in particular `"308209 B63"` parses to
`stop_query{stopCode:"308209", route:"B63"}`. -/
theorem stop_rule_captures_six_digits :
    (parse "308209 B63" false none = .stop_query "308209" (some "B63")) ∧
    ∀ (s : String) (hm : Bool) (mt : Option String),
      lowerChars (trimChars s.toList) ≠ "how".toList →
      lowerChars (trimChars s.toList) ≠ "?".toList →
      lowerChars (trimChars s.toList) ≠ "reset calories".toList →
      lowerChars (trimChars s.toList) ≠ "total".toList →
      subMatch (lowerChars (trimChars s.toList)) = none →
      (hm && mediaIsImage (mt.map String.toList)) = false →
      lowerChars (trimChars s.toList) ≠ "r".toList →
      lowerChars (trimChars s.toList) ≠ "refresh".toList →
      (("c ".toList).isPrefixOf (lowerChars (trimChars s.toList))) = false →
      hasSixDigitRun (trimChars s.toList) = true →
      ∃ code route, parse s hm mt = .stop_query code route ∧
        code.toList.length = 6 ∧ code.toList.all Char.isDigit = true ∧
        code.toList <:+: s.toList := by
  refine ⟨by decide, ?_⟩
  intro s hm mt h1 h2 h3 h4 h5 h6 h7 h8 h9 hsix
  have hstep := parseChars_past7 s.toList hm (mt.map String.toList)
    h1 h2 h3 h4 h5 h6 h7 h8 h9
  have hsome := stopMatch_isSome hsix
  cases hsm : stopMatch (trimChars s.toList) with
  | none => rw [hsm] at hsome; simp at hsome
  | some pr =>
    obtain ⟨code, route⟩ := pr
    have hspec := stopMatch_spec hsm
    refine ⟨⟨code⟩, route.map (fun r => ⟨r.map Char.toUpper⟩), ?_, ?_, ?_, ?_⟩
    · show parseChars s.toList hm (mt.map String.toList) = _
      rw [hstep, hsm]
    · exact hspec.1
    · exact hspec.2.1
    · exact hspec.2.2.trans (trimChars_inf s.toList)

/-- C6 witness at `"308209 B63"`. -/
theorem stop_rule_captures_six_digits_witness :
    hasSixDigitRun (trimChars ("308209 B63".toList)) = true ∧
    (∃ code route, parse "308209 B63" false none = .stop_query code route ∧
      code.toList.length = 6 ∧ code.toList.all Char.isDigit = true ∧
      code.toList <:+: "308209 B63".toList) :=
  ⟨by decide,
    stop_rule_captures_six_digits.2 "308209 B63" false none (by decide) (by decide)
      (by decide) (by decide) (by decide) (by decide) (by decide) (by decide)
      (by decide) (by decide)⟩

/-- C1 counterexample: by the spec's own precedence (the permissive
stop-code rule 8 is tried before the Uber rule 9), an Uber message whose
auth code has six digits is routed to `stop_query`, not `uber_auth`. -/
theorem uber_subgrammar_cex :
    parseSpec "uber auth 482193" false none = .stop_query "482193" none ∧
    parseSpec "uber auth 482193" false none ≠ .uber_auth "482193" := by
  exact ⟨by decide, by decide⟩

/-- C1 amended: for a mediafree message that begins (case-insensitively)
with `uber ` and contains no six consecutive digits, the parser applies the
Uber sub-grammar and never yields `food_query`; the spec's example forms
parse to their respective Uber commands. -/
theorem uber_subgrammar_amended :
    (parseSpec "uber times square to jfk" false none =
      .uber_quote "times square" "jfk") ∧
    (parseSpec "uber confirm" false none = .uber_confirm) ∧
    (parseSpec "uber status" false none = .uber_status) ∧
    (parseSpec "uber cancel" false none = .uber_cancel) ∧
    (parseSpec "uber auth 4821" false none = .uber_auth "4821") ∧
    ∀ (s : String),
      ("uber ".toList).isPrefixOf (lowerChars (trimChars s.toList)) = true →
      hasSixDigitRun (trimChars s.toList) = false →
      parseSpec s false none = uberRule (trimChars s.toList) ∧
      ∀ d, parseSpec s false none ≠ .food_query d := by
  refine ⟨by decide, by decide, by decide, by decide, by decide, ?_⟩
  intro s hu hsix
  obtain ⟨t, ht⟩ := List.isPrefixOf_iff_prefix.mp hu
  have hlit : "uber ".toList = ['u', 'b', 'e', 'r', ' '] := by decide
  have hcons : lowerChars (trimChars s.toList) = 'u' :: 'b' :: 'e' :: 'r' :: ' ' :: t := by
    rw [← ht, hlit]
    rfl
  have hHow : "how".toList = ['h', 'o', 'w'] := by decide
  have hQ : "?".toList = ['?'] := by decide
  have hReset : "reset calories".toList =
      ['r', 'e', 's', 'e', 't', ' ', 'c', 'a', 'l', 'o', 'r', 'i', 'e', 's'] := by decide
  have hTotal : "total".toList = ['t', 'o', 't', 'a', 'l'] := by decide
  have hR : "r".toList = ['r'] := by decide
  have hRefresh : "refresh".toList = ['r', 'e', 'f', 'r', 'e', 's', 'h'] := by decide
  have h1 : lowerChars (trimChars s.toList) ≠ "how".toList := by
    rw [hcons, hHow]; intro h; injection h with hc _; exact absurd hc (by decide)
  have h2 : lowerChars (trimChars s.toList) ≠ "?".toList := by
    rw [hcons, hQ]; intro h; injection h with hc _; exact absurd hc (by decide)
  have h3 : lowerChars (trimChars s.toList) ≠ "reset calories".toList := by
    rw [hcons, hReset]; intro h; injection h with hc _; exact absurd hc (by decide)
  have h4 : lowerChars (trimChars s.toList) ≠ "total".toList := by
    rw [hcons, hTotal]; intro h; injection h with hc _; exact absurd hc (by decide)
  have h5 : subMatch (lowerChars (trimChars s.toList)) = none := by
    rw [hcons]; rfl
  have h6 : (false && mediaIsImage ((none : Option String).map String.toList)) = false := rfl
  have h7 : lowerChars (trimChars s.toList) ≠ "r".toList := by
    rw [hcons, hR]; intro h; injection h with hc _; exact absurd hc (by decide)
  have h8 : lowerChars (trimChars s.toList) ≠ "refresh".toList := by
    rw [hcons, hRefresh]; intro h; injection h with hc _; exact absurd hc (by decide)
  have h9 : (("c ".toList).isPrefixOf (lowerChars (trimChars s.toList))) = false := by
    rw [hcons]; rfl
  have hstep := parseSpecChars_past7 s.toList false ((none : Option String).map String.toList)
    h1 h2 h3 h4 h5 h6 h7 h8 h9
  have hmain : parseSpec s false none = uberRule (trimChars s.toList) := by
    show parseSpecChars s.toList false ((none : Option String).map String.toList) = _
    rw [hstep, stopMatch_eq_none hsix, hu]
    simp
  refine ⟨hmain, ?_⟩
  intro d
  rw [hmain]
  exact uberRule_ne_food _ d

/-- C1 amended witness at `"uber home to work"`. -/
theorem uber_subgrammar_amended_witness :
    ("uber ".toList).isPrefixOf (lowerChars (trimChars ("uber home to work".toList))) = true ∧
    hasSixDigitRun (trimChars ("uber home to work".toList)) = false ∧
    (parseSpec "uber home to work" false none =
        uberRule (trimChars ("uber home to work".toList)) ∧
      ∀ d, parseSpec "uber home to work" false none ≠ .food_query d) :=
  ⟨by decide, by decide,
    uber_subgrammar_amended.2.2.2.2.2 "uber home to work" (by decide) (by decide)⟩

/-! ### Claim theorems: session TTL and the calorie counter -/

/-- C8: the `lastBusQuery` slot of `SessionManager` has a 20-minute TTL
enforced lazily at read time: a query saved at time T is returned at
T+5 minutes and absent at T+21 minutes. -/
theorem session_ttl_twenty_minutes :
    ∀ (m : SessionManager) (phone code : String) (route : Option String) (T : Nat),
      (getLastQuery (saveQuery m phone code route T) phone (T + 5 * 60 * 1000)).1 =
        some (code, route) ∧
      (getLastQuery (saveQuery m phone code route T) phone (T + 21 * 60 * 1000)).1 =
        none := by
  intro m phone code route T
  constructor
  · simp [getLastQuery, saveQuery, sessionTimeout, Nat.add_sub_cancel_left]
  · simp [getLastQuery, saveQuery, sessionTimeout, Nat.add_sub_cancel_left]

/-- C9: `reset_calories` replies with the pre-reset daily total, and a
`total` issued afterwards on the same day with no intervening additions
replies with a zero total (against the unchanged target). -/
theorem reset_returns_previous_then_zero :
    ∀ (st : ServerState) (o : Oracles) (p t today : String) (now : Nat),
      (handleSms .reset_calories p t st o today now).twiml =
        ["Daily calories reset. Previous total was " ++
          toString (getTodayTotal st.cal today) ++ " cal."] ∧
      (handleSms .total p t
          (handleSms .reset_calories p t st o today now).state o today now).twiml =
        ["Today\x27s total: 0 / " ++ toString (getTarget st.cal) ++ " cal"] := by
  intro st o p t today now
  constructor
  · rfl
  · have h0 : getTodayTotal (resetToday st.cal today).2 today = 0 := by
      simp [resetToday, setDaily, getTodayTotal]
    show ["Today\x27s total: " ++ toString (getTodayTotal (resetToday st.cal today).2 today)
        ++ " / " ++ toString (getTarget (resetToday st.cal today).2) ++ " cal"] = _
    rw [h0]
    rfl

/-- The total after a subtraction, uniformly: the floor-clamped difference. -/
theorem subtract_total_eq (db : CalDB) (today : String) (a : Nat) :
    getTodayTotal (subtractCalories db today (a : Int)).2 today =
      max 0 (getTodayTotal db today - (a : Int)) := by
  cases hd : db.daily today with
  | some v => simp [subtractCalories, hd, setDaily, getTodayTotal]
  | none =>
    simp [subtractCalories, hd, setDaily, getTodayTotal]

/-- A subtraction does not touch the stored target. -/
theorem subtract_target_eq (db : CalDB) (today : String) (x : Int) :
    getTarget (subtractCalories db today x).2 = getTarget db := by
  cases hd : db.daily today <;> simp [subtractCalories, hd, setDaily, getTarget]

/-- C10: the daily counter and the target are keyed by date alone, never by
sender: every calorie command produces the same outcome whichever sender
issues it, and a reset, target change or subtraction by one sender is what
a `total` from any other sender subsequently reads. -/
theorem calorie_state_shared_across_senders :
    ∀ (st : ServerState) (o : Oracles) (t today : String) (now : Nat) (p1 p2 : String),
      p1 ≠ p2 →
      ∀ (a tgt : Nat) (d : String),
      (handleSms (.subtract a) p1 t st o today now =
        handleSms (.subtract a) p2 t st o today now) ∧
      (handleSms .reset_calories p1 t st o today now =
        handleSms .reset_calories p2 t st o today now) ∧
      (handleSms (.set_target tgt) p1 t st o today now =
        handleSms (.set_target tgt) p2 t st o today now) ∧
      (handleSms (.food_query d) p1 t st o today now =
        handleSms (.food_query d) p2 t st o today now) ∧
      ((handleSms .total p2 t
          (handleSms .reset_calories p1 t st o today now).state o today now).twiml =
        ["Today\x27s total: 0 / " ++ toString (getTarget st.cal) ++ " cal"]) ∧
      ((handleSms .total p2 t
          (handleSms (.set_target tgt) p1 t st o today now).state o today now).twiml =
        ["Today\x27s total: " ++ toString (getTodayTotal st.cal today) ++ " / " ++
          toString (tgt : Int) ++ " cal"]) ∧
      ((handleSms .total p2 t
          (handleSms (.subtract a) p1 t st o today now).state o today now).twiml =
        ["Today\x27s total: " ++
          toString (max 0 (getTodayTotal st.cal today - (a : Int))) ++ " / " ++
          toString (getTarget st.cal) ++ " cal"]) := by
  intro st o t today now p1 p2 _ a tgt d
  refine ⟨rfl, rfl, rfl, rfl, ?_, ?_, ?_⟩
  · have h0 : getTodayTotal (resetToday st.cal today).2 today = 0 := by
      simp [resetToday, setDaily, getTodayTotal]
    show ["Today\x27s total: " ++ toString (getTodayTotal (resetToday st.cal today).2 today)
        ++ " / " ++ toString (getTarget (resetToday st.cal today).2) ++ " cal"] = _
    rw [h0]
    rfl
  · rfl
  · have hs := subtract_total_eq st.cal today a
    show ["Today\x27s total: " ++
        toString (getTodayTotal (subtractCalories st.cal today (a : Int)).2 today)
        ++ " / " ++ toString (getTarget (subtractCalories st.cal today (a : Int)).2) ++ " cal"]
      = _
    rw [hs, subtract_target_eq]

/-! ### Claim theorems: the dispatcher -/

theorem append_ne_empty_of_right (s t : String) (h : 0 < t.length) : s ++ t ≠ "" := by
  intro he
  have hl := congrArg String.length he
  rw [String.length_append, show ("" : String).length = 0 from rfl] at hl
  omega

/-- Oracle record in which every collaborator call fails with an empty
message; individual fields are overridden per scenario. -/
def oDefault : Oracles :=
  ⟨.error "", .error "", .error "", .error "", .error "", .error "", .error "",
    .error "", .error "", .error ""⟩

/-- A stored pending ride used by the concrete witnesses. -/
def pendingRideEx : PendingRide := ⟨⟨"A"⟩, ⟨"B"⟩, "prod-1", "UberX", "$10.00"⟩

/-- A store holding a fresh pending ride, an active ride and a pending auth
for phone number `"p"`. -/
def stAll : ServerState :=
  { emptyServerState with
    pendingRides := fun p => if p = "p" then some (pendingRideEx, 0) else none
    activeRides := fun p => if p = "p" then some "req-1" else none
    pendingAuths := fun p => if p = "p" then some (⟨"quote", "A", "B"⟩, 0) else none }

/-- C10 witness: two distinct senders observe the same shared daily state:
a reset by `"000"` is what a `total` from `"111"` subsequently reads. -/
theorem calorie_state_shared_across_senders_witness :
    ("000" : String) ≠ "111" ∧
    ((handleSms .total "111" "t"
        (handleSms .reset_calories "000" "t" emptyServerState oDefault "2026-10-12" 0).state
        oDefault "2026-10-12" 0).twiml =
      ["Today\x27s total: 0 / " ++ toString (getTarget emptyServerState.cal) ++ " cal"]) :=
  ⟨by decide,
    (calorie_state_shared_across_senders emptyServerState oDefault "t" "2026-10-12" 0
      "000" "111" (by decide) 5 2000 "x").2.2.2.2.1⟩

/-- C4: `uber_confirm` from a number with no non-expired pending ride
replies with the instructive no-pending-ride message, performs no
collaborator call, sends nothing out of band, and leaves the whole session
state untouched. -/
theorem confirm_without_quote :
    ∀ (st : ServerState) (o : Oracles) (f t today : String) (now : Nat),
      getPendingRide st f now = none →
      (handleSms .uber_confirm f t st o today now).twiml =
        ["No pending Uber ride. Text \x22uber [pickup] to [destination]\x22 first."] ∧
      (handleSms .uber_confirm f t st o today now).calls = [] ∧
      (handleSms .uber_confirm f t st o today now).asyncMsgs = [] ∧
      (handleSms .uber_confirm f t st o today now).state = st := by
  intro st o f t today now hp
  have h : handleSms .uber_confirm f t st o today now =
      ⟨["No pending Uber ride. Text \x22uber [pickup] to [destination]\x22 first."],
        [], [], st⟩ := by
    simp only [handleSms, hp]
  rw [h]
  exact ⟨rfl, rfl, rfl, rfl⟩

/-- C4 witness on the empty store. -/
theorem confirm_without_quote_witness :
    getPendingRide emptyServerState "p" 0 = none ∧
    ((handleSms .uber_confirm "p" "t" emptyServerState oDefault "d" 0).twiml =
        ["No pending Uber ride. Text \x22uber [pickup] to [destination]\x22 first."] ∧
      (handleSms .uber_confirm "p" "t" emptyServerState oDefault "d" 0).calls = [] ∧
      (handleSms .uber_confirm "p" "t" emptyServerState oDefault "d" 0).asyncMsgs = [] ∧
      (handleSms .uber_confirm "p" "t" emptyServerState oDefault "d" 0).state =
        emptyServerState) :=
  ⟨rfl, confirm_without_quote emptyServerState oDefault "p" "t" "d" 0 rfl⟩

/-- C3: when the booking agent reports `price_exceeded`, `confirmUberRide`
fails with an error naming both the live and the quoted price, the booking
is not completed, and the dispatcher's confirm continuation sends that
error out of band and leaves the session state — in particular the
`activeRides` slot — exactly as it was. -/
theorem price_exceeded_blocks_booking :
    ∀ (st : ServerState) (o : Oracles) (f t today : String) (now : Nat)
      (q : AgentQuoteInput) (product : UberProduct) (ar : AgentBookResult) (cur : String),
      q.products.get? 0 = some product →
      ar.success = false →
      ar.error = some "price_exceeded" →
      ar.currentPrice = some cur →
      (getPendingRide st f now).isSome = true →
      ∃ msg, confirmUberRide q 0 now ar = .error msg ∧
        msg = "Price increased to " ++ cur ++ " (was " ++ product.price ++
          "). Booking cancelled." ∧
        (handleSms .uber_confirm f t st { o with uberConfirm := .error msg } today now).state
          = st ∧
        (handleSms .uber_confirm f t st { o with uberConfirm := .error msg } today now).asyncMsgs
          = [(f, t, msg)] ∧
        (handleSms .uber_confirm f t st { o with uberConfirm := .error msg } today now).twiml
          = ["Booking your Uber... (this may take a moment)"] := by
  intro st o f t today now q product ar cur hprod hfail herr hcur hpend
  refine ⟨"Price increased to " ++ cur ++ " (was " ++ product.price ++
    "). Booking cancelled.", ?_, rfl, ?_⟩
  · simp only [confirmUberRide, hprod, hcur, if_pos hfail, if_pos herr, showOpt]
  · have hne : ("Price increased to " ++ cur ++ " (was " ++ product.price ++
        "). Booking cancelled.") ≠ "" :=
      append_ne_empty_of_right _ "). Booking cancelled." (by decide)
    cases hpr : getPendingRide st f now with
    | none => rw [hpr] at hpend; simp at hpend
    | some p =>
      have h : handleSms .uber_confirm f t st
          { o with uberConfirm := .error ("Price increased to " ++ cur ++ " (was " ++
            product.price ++ "). Booking cancelled.") } today now =
          ⟨["Booking your Uber... (this may take a moment)"],
            [(f, t, "Price increased to " ++ cur ++ " (was " ++ product.price ++
              "). Booking cancelled.")], [.uberConfirm], st⟩ := by
        simp only [handleSms, hpr, strOr, if_neg hne]
      rw [h]
      exact ⟨rfl, rfl, rfl⟩

/-- C3 witness: a concrete price-exceeded report against a stored pending
ride. -/
theorem price_exceeded_blocks_booking_witness :
    (AgentQuoteInput.mk [⟨"UberX", "$10.00", "3 min"⟩] ⟨"A"⟩ ⟨"B"⟩).products.get? 0 =
      some ⟨"UberX", "$10.00", "3 min"⟩ ∧
    (AgentBookResult.mk false (some "price_exceeded") none (some "$20.00")
        none none none none).success = false ∧
    (getPendingRide stAll "p" 0).isSome = true ∧
    ∃ msg, confirmUberRide (AgentQuoteInput.mk [⟨"UberX", "$10.00", "3 min"⟩] ⟨"A"⟩ ⟨"B"⟩) 0 0
        (AgentBookResult.mk false (some "price_exceeded") none (some "$20.00")
          none none none none) = .error msg ∧
      msg = "Price increased to " ++ "$20.00" ++ " (was " ++ "$10.00" ++
        "). Booking cancelled." ∧
      (handleSms .uber_confirm "p" "t" stAll { oDefault with uberConfirm := .error msg }
        "d" 0).state = stAll ∧
      (handleSms .uber_confirm "p" "t" stAll { oDefault with uberConfirm := .error msg }
        "d" 0).asyncMsgs = [("p", "t", msg)] ∧
      (handleSms .uber_confirm "p" "t" stAll { oDefault with uberConfirm := .error msg }
        "d" 0).twiml = ["Booking your Uber... (this may take a moment)"] :=
  ⟨rfl, rfl, rfl,
    price_exceeded_blocks_booking stAll oDefault "p" "t" "d" 0
      (AgentQuoteInput.mk [⟨"UberX", "$10.00", "3 min"⟩] ⟨"A"⟩ ⟨"B"⟩)
      ⟨"UberX", "$10.00", "3 min"⟩
      (AgentBookResult.mk false (some "price_exceeded") none (some "$20.00")
        none none none none) "$20.00" rfl rfl rfl rfl rfl⟩

/-- C2 counterexample: a failing detached uber-quote continuation sends
the collaborator's raw error message (`"boom"`) to the user, not the fixed
apology string — the raw message does reach the user. -/
theorem dispatcher_error_handling_cex :
    (handleSms (.uber_quote "A" "B") "p" "t" emptyServerState
        { oDefault with uberQuote := .error "boom" } "d" 0).asyncMsgs =
      [("p", "t", "boom")] ∧
    "boom" ≠ apologyText :=
  ⟨rfl, by decide⟩

/-- C2 amended: a collaborator failure on a synchronous command is caught
and replaced by the fixed apology (the raw message never appears in the
webhook reply), and a failing detached continuation always sends exactly
one out-of-band notification — never silently dropped — whose body is the
collaborator's raw error message when non-empty (`uber_status` alone sends
a fixed message). -/
theorem dispatcher_error_handling_amended :
    ∀ (st : ServerState) (o : Oracles) (f t today : String) (now : Nat) (e : String)
      (d sc tc pck dst code : String) (rt : Option String) (cal : Nat)
      (dsc : Option String) (pr : PendingRide) (rid : String) (pa : PendingAuth),
      e ≠ "" →
      getPendingRide st f now = some pr →
      getActiveRide st f = some rid →
      getPendingAuth st f now = some pa →
      (handleSms (.food_query d) f t st { o with geminiText := .error e } today now).twiml
        = [apologyText] ∧
      (handleSms (.stop_query sc rt) f t st { o with mta := .error e } today now).twiml
        = [apologyText] ∧
      (handleSms (.suggestions cal dsc) f t st { o with geminiSuggest := .error e }
          today now).twiml = [apologyText] ∧
      (handleSms (.image_calorie tc) f t st { o with mediaFetch := .error e }
          today now).twiml = [apologyText] ∧
      (handleSms (.uber_quote pck dst) f t st { o with uberQuote := .error e }
          today now).asyncMsgs = [(f, t, e)] ∧
      (handleSms .uber_confirm f t st { o with uberConfirm := .error e }
          today now).asyncMsgs = [(f, t, e)] ∧
      (handleSms .uber_cancel f t st { o with uberCancel := .error e }
          today now).asyncMsgs = [(f, t, e)] ∧
      (handleSms (.uber_auth code) f t st { o with uberAuth := .error e }
          today now).asyncMsgs = [(f, t, e)] ∧
      (handleSms .uber_status f t st { o with uberStatus := .error e }
          today now).asyncMsgs = [(f, t, "Could not get ride status.")] := by
  intro st o f t today now e d sc tc pck dst code rt cal dsc pr rid pa
    he hpr hact hauth
  refine ⟨rfl, rfl, rfl, rfl, ?_, ?_, ?_, ?_, ?_⟩
  · simp only [handleSms, strOr, if_neg he]
  · simp only [handleSms, hpr, strOr, if_neg he]
  · simp only [handleSms, getActiveRide] at *
    simp only [handleSms, hact, strOr, if_neg he]
  · simp only [handleSms, hauth, strOr, if_neg he]
  · simp only [handleSms, hact]

/-- C2 amended witness: concrete store with all three slots populated and a
non-empty error message. -/
theorem dispatcher_error_handling_amended_witness :
    ("boom" : String) ≠ "" ∧
    getPendingRide stAll "p" 0 = some pendingRideEx ∧
    getActiveRide stAll "p" = some "req-1" ∧
    getPendingAuth stAll "p" 0 = some ⟨"quote", "A", "B"⟩ ∧
    ((handleSms (.food_query "x") "p" "t" stAll { oDefault with geminiText := .error "boom" }
        "d" 0).twiml = [apologyText] ∧
      (handleSms (.stop_query "308209" none) "p" "t" stAll
          { oDefault with mta := .error "boom" } "d" 0).twiml = [apologyText] ∧
      (handleSms (.suggestions 500 none) "p" "t" stAll
          { oDefault with geminiSuggest := .error "boom" } "d" 0).twiml = [apologyText] ∧
      (handleSms (.image_calorie "x") "p" "t" stAll
          { oDefault with mediaFetch := .error "boom" } "d" 0).twiml = [apologyText] ∧
      (handleSms (.uber_quote "A" "B") "p" "t" stAll
          { oDefault with uberQuote := .error "boom" } "d" 0).asyncMsgs
        = [("p", "t", "boom")] ∧
      (handleSms .uber_confirm "p" "t" stAll
          { oDefault with uberConfirm := .error "boom" } "d" 0).asyncMsgs
        = [("p", "t", "boom")] ∧
      (handleSms .uber_cancel "p" "t" stAll
          { oDefault with uberCancel := .error "boom" } "d" 0).asyncMsgs
        = [("p", "t", "boom")] ∧
      (handleSms (.uber_auth "4821") "p" "t" stAll
          { oDefault with uberAuth := .error "boom" } "d" 0).asyncMsgs
        = [("p", "t", "boom")] ∧
      (handleSms .uber_status "p" "t" stAll
          { oDefault with uberStatus := .error "boom" } "d" 0).asyncMsgs
        = [("p", "t", "Could not get ride status.")]) :=
  ⟨by decide, rfl, rfl, rfl,
    dispatcher_error_handling_amended stAll oDefault "p" "t" "d" 0 "boom"
      "x" "308209" "x" "A" "B" "4821" none 500 none pendingRideEx "req-1"
      ⟨"quote", "A", "B"⟩ (by decide) rfl rfl rfl⟩

example (x : List Char) : subMatch ('u' :: x) = none := rfl

example (x : List Char) : (("c ".toList).isPrefixOf ('u' :: x)) = false := rfl

example : parse "308209 B63" false none = .stop_query "308209" (some "B63") := by decide

example : parse "sub 20" false none = .subtract 20 := by decide

example : parse "" false none = .error errorHint := by decide

example : parse "a" false none = .error errorHint := by decide

example : parse "2 eggs and toast" false none = .food_query "2 eggs and toast" := by decide

example : parse "uber times square to jfk" false none = .food_query "uber times square to jfk" := by decide

example : parse "stop 308209" false none = .stop_query "308209" none := by decide

end BusRoutes
